import Mathlib

/-!
Verification of the geojson-utility CSV ingestion-and-enrichment pipeline.

The repository consists of a React frontend (`StepContent.tsx`, `LoginModal`,
`AuthProvider`, `Dashboard`) and a FastAPI backend documented in the README.
The backend's validator / worker / notifier code is not part of the source
tree here, so those components are modelled from the specification text; the
frontend components are embedded directly from their TypeScript source.

Machine numbers that appear in the pipeline (GPS coordinates, drive values)
are embedded as exact scaled integers: a decimal literal `d1…dm.f1…fk` is
carried as the integer `d1…dmf1…fk` together with its number of fractional
digits `k`, so range checks are integer comparisons against `bound * 10^k`.
-/

namespace GeoJsonUtility

/-! ## Job status

Modelled from the spec: `status` is one of
`pending | processing | done | partial | failed` (§3); `partial` is spelled
`partialSuccess` here. -/

inductive JobStatus where
  | pending
  | processing
  | done
  | partialSuccess
  | failed
deriving DecidableEq, Repr

/-- The wire spelling of a status, as it appears in push events. -/
def statusString : JobStatus → String
  | .pending => "pending"
  | .processing => "processing"
  | .done => "done"
  | .partialSuccess => "partial"
  | .failed => "failed"

/-! ## Rows and decimal numbers -/

/-- One parsed line of the uploaded table (raw field strings).
Modelled from the spec: fixed column set
`snp_id, provider_id, location_id, location_gps, drive_distance, drive_time`
(§3). -/
structure Row where
  snp_id : String
  provider_id : String
  location_id : String
  location_gps : String
  drive_distance : String
  drive_time : String
deriving DecidableEq, Repr

/-- An exact decimal number: `num` is the value scaled by `10 ^ decimals`. -/
structure DecimalNum where
  num : Int
  decimals : Nat
deriving DecidableEq, Repr

def allDigits (l : List Char) : Bool := l.all Char.isDigit

def digitsToNat (l : List Char) : Nat :=
  l.foldl (fun a c => a * 10 + (c.toNat - 48)) 0

/-- Parse an unsigned decimal: digits, optionally followed by `.` and more
digits. Returns the scaled value and the count of fractional digits. -/
def parseUnsignedDecimal (l : List Char) : Option DecimalNum :=
  match l.splitOn '.' with
  | [ip] =>
      if ip ≠ [] && allDigits ip then some ⟨(digitsToNat ip : Int), 0⟩ else none
  | [ip, fp] =>
      if ip ≠ [] && fp ≠ [] && allDigits ip && allDigits fp then
        some ⟨(digitsToNat ip * 10 ^ fp.length + digitsToNat fp : Int), fp.length⟩
      else none
  | _ => none

/-- Parse a possibly negative decimal number. -/
def parseDecimal (l : List Char) : Option DecimalNum :=
  match l with
  | '-' :: rest => (parseUnsignedDecimal rest).map (fun d => ⟨-d.num, d.decimals⟩)
  | _ => parseUnsignedDecimal l

/-- Modelled from the spec: latitude ∈ [-90, 90] (§4.1), inclusive bounds. -/
def latInRange (d : DecimalNum) : Bool :=
  -(90 * 10 ^ d.decimals : Int) ≤ d.num && d.num ≤ 90 * 10 ^ d.decimals

/-- Modelled from the spec: longitude ∈ [-180, 180] (§4.1), inclusive bounds. -/
def lonInRange (d : DecimalNum) : Bool :=
  -(180 * 10 ^ d.decimals : Int) ≤ d.num && d.num ≤ 180 * 10 ^ d.decimals

/-- Split a `location_gps` value into its two comma-separated decimal
components, when it has exactly that shape. -/
def parseGps (s : String) : Option (DecimalNum × DecimalNum) :=
  match s.data.splitOn ',' with
  | [a, b] =>
      match parseDecimal a, parseDecimal b with
      | some la, some lo => some (la, lo)
      | _, _ => none
  | _ => none

/-- Modelled from the spec: `location_gps` is exactly two comma-separated
decimal numbers, each with ≥4 digits after the decimal point, latitude in
[-90, 90], longitude in [-180, 180] (§4.1). -/
def gpsFieldOk (s : String) : Bool :=
  match parseGps s with
  | some (la, lo) =>
      4 ≤ la.decimals && 4 ≤ lo.decimals && latInRange la && lonInRange lo
  | none => false

/-- Characters allowed in the three identifier fields. -/
def isIdChar (c : Char) : Bool := c.isAlphanum || c = '_' || c = '-'

/-- Modelled from the spec: `snp_id` / `provider_id` / `location_id` are
non-empty, ≤255 characters, alphanumerics/underscore/dash only, no
leading/trailing whitespace (§4.1). -/
def idFieldOk (s : String) : Bool :=
  !s.isEmpty && s.length ≤ 255 && s.data.all isIdChar
    && !(s.front.isWhitespace) && !(s.back.isWhitespace)

/-- Modelled from the spec: a drive value, if present, is a positive integer;
a value with a zero fractional part, e.g. `500.0`, is accepted and truncated
(§4.1). Returns the truncated integer. -/
def parseDriveValue (s : String) : Option Nat :=
  match parseUnsignedDecimal s.data with
  | some d =>
      if d.num % (10 ^ d.decimals : Int) = 0 then (d.num / (10 ^ d.decimals : Int)).toNat'
      else none
  | none => none

/-- Modelled from the spec: `drive_distance` positive, upper bound 100000. -/
def driveDistanceOk (s : String) : Bool :=
  match parseDriveValue s with
  | some n => 0 < n && n ≤ 100000
  | none => false

/-- Modelled from the spec: `drive_time` positive, upper bound 10000. -/
def driveTimeOk (s : String) : Bool :=
  match parseDriveValue s with
  | some n => 0 < n && n ≤ 10000
  | none => false

/-- Modelled from the spec: at least one of `drive_distance` / `drive_time`
present and non-blank; each, if present, valid (§4.1). -/
def driveFieldsOk (dd dt : String) : Bool :=
  (!dd.isEmpty || !dt.isEmpty)
    && (dd.isEmpty || driveDistanceOk dd)
    && (dt.isEmpty || driveTimeOk dt)

/-- Row numbers as reported to the user: data row `i` (0-based) is line
`i + 2` of the file, the header being line 1. -/
def rowNumber (i : Nat) : Nat := i + 2

/-- Modelled from the spec: per-row rules applied in a stable order, all
violations collected, not short-circuited (§4.1). -/
def rowErrors (i : Nat) (r : Row) : List (Nat × String) :=
  (if idFieldOk r.snp_id then [] else [(rowNumber i, "snp_id invalid")])
    ++ (if idFieldOk r.provider_id then [] else [(rowNumber i, "provider_id invalid")])
    ++ (if idFieldOk r.location_id then [] else [(rowNumber i, "location_id invalid")])
    ++ (if gpsFieldOk r.location_gps then [] else [(rowNumber i, "location_gps invalid")])
    ++ (if driveFieldsOk r.drive_distance r.drive_time then []
        else [(rowNumber i, "drive fields invalid")])

/-! ## File-level validation -/

/-- One uploaded file: its size in bytes and its parsed data rows. -/
structure CsvFile where
  sizeBytes : Nat
  rows : List Row
deriving DecidableEq, Repr

/-- Holds when another, distinct row of the file is byte-identical to row
`i`. Modelled from the spec: no two rows byte-identical (§4.1). -/
def duplicateRowAt (rows : List Row) (i : Nat) : Bool :=
  match rows.get? i with
  | some r => 2 ≤ rows.count r
  | none => false

/-- Holds when another, distinct row of the file shares row `i`'s
`location_id`. Modelled from the spec: no two rows sharing `location_id`
(§4.1). -/
def duplicateLocationAt (rows : List Row) (i : Nat) : Bool :=
  match rows.get? i with
  | some r => 2 ≤ (rows.map Row.location_id).count r.location_id
  | none => false

/-- Modelled from the spec: file-level rules — size ≤ 2 MB, row count ≤ 1000,
no two rows byte-identical, no two rows sharing `location_id` (§4.1); each
offending row is reported under its own row number. -/
def fileLevelErrors (f : CsvFile) : List (Nat × String) :=
  (if f.sizeBytes ≤ 2 * 1024 * 1024 then [] else [(1, "file exceeds 2 MB")])
    ++ (if f.rows.length ≤ 1000 then [] else [(1, "file exceeds 1000 rows")])
    ++ (List.range f.rows.length).bind fun i =>
        (if duplicateRowAt f.rows i then [(rowNumber i, "duplicate row")] else [])
          ++ (if duplicateLocationAt f.rows i then
                [(rowNumber i, "duplicate location_id")]
              else [])

/-- All violations of a file, file-level first, then per row in order. -/
def allRowErrors (f : CsvFile) : List (Nat × String) :=
  fileLevelErrors f
    ++ (List.range f.rows.length).bind fun i =>
        match f.rows.get? i with
        | some r => rowErrors i r
        | none => []

/-- Modelled from the spec: `validate(rawBytes) → Result<ordered sequence of
Row, ordered sequence of RowError>` (§4.1); all violations are collected in
one pass and any violation rejects the whole file. -/
def validate (f : CsvFile) : Except (List (Nat × String)) (List Row) :=
  if allRowErrors f = [] then .ok f.rows else .error (allRowErrors f)

/-! ## Jobs and the Processing Worker -/

/-- A row plus the geometry produced by the external provider.
Modelled from the spec: EnrichedRow (§3). -/
structure EnrichedRow where
  row : Row
  geojson : String
deriving DecidableEq, Repr

/-- Durable record of one submitted file. Modelled from the spec: Job (§3);
`result_ref` carries the output artifact when present. -/
structure Job where
  status : JobStatus
  error_report : List (Nat × String)
  result_ref : Option (List EnrichedRow)
deriving DecidableEq, Repr

/-- Modelled from the spec: the Gateway creates the Job with status
`pending` (§2, §4.4). -/
def newJob : Job :=
  { status := .pending, error_report := [], result_ref := none }

/-- Modelled from the spec: the Worker claims the job,
`pending → processing` (§4.4). -/
def claimJob (j : Job) : Job :=
  { j with status := .processing }

/-- The outcome of enrichment, after retries, for each row: row index, the
row, and `some geojson` on success or `none` on failure. The enrichment
function `e` abstracts the external provider together with the bounded-retry
policy of §4.3. -/
def enrichResults (e : Nat → Row → Option String) : Nat → List Row → List (Nat × Row × Option String)
  | _, [] => []
  | i, r :: rs => (i, r, e i r) :: enrichResults e (i + 1) rs

/-- The successfully enriched rows, in input order. -/
def successes (e : Nat → Row → Option String) (rows : List Row) : List EnrichedRow :=
  (enrichResults e 0 rows).filterMap fun x => (x.2.2).map fun g => ⟨x.2.1, g⟩

/-- The error-report entries of the rows that failed enrichment. -/
def failures (e : Nat → Row → Option String) (rows : List Row) : List (Nat × String) :=
  (enrichResults e 0 rows).filterMap fun x =>
    match x.2.2 with
    | some _ => none
    | none => some (rowNumber x.1, "enrichment failed")

/-- Modelled from the spec: the Worker drives a claimed job to its terminal
state (§4.4): `processing → failed` when validation rejected ≥1 row or all
rows failed enrichment; `processing → partial` when all rows are
schema-valid, ≥1 row failed enrichment and ≥1 succeeded;
`processing → done` when all rows are schema-valid and enriched. -/
def finishJob (e : Nat → Row → Option String) (f : CsvFile) (j : Job) : Job :=
  match validate f with
  | .error errs =>
      { j with status := .failed, error_report := errs, result_ref := none }
  | .ok rows =>
      let fails := failures e rows
      let oks := successes e rows
      if fails.isEmpty then
        { j with status := .done, error_report := [], result_ref := some oks }
      else if oks.isEmpty then
        { j with status := .failed, error_report := fails, result_ref := none }
      else
        { j with status := .partialSuccess, error_report := fails, result_ref := some oks }

/-- The whole pipeline for one file: create, claim, process. -/
def runJob (e : Nat → Row → Option String) (f : CsvFile) : Job :=
  finishJob e f (claimJob newJob)

/-- The jobs that can actually arise: created pending, claimed while
pending, finished while processing (§4.4). -/
inductive JobReachable : Job → Prop where
  | created : JobReachable newJob
  | claimed {j : Job} : JobReachable j → j.status = .pending →
      JobReachable (claimJob j)
  | finished {j : Job} (e : Nat → Row → Option String) (f : CsvFile) :
      JobReachable j → j.status = .processing →
      JobReachable (finishJob e f j)

/-! ## Result download endpoint and the push status channel -/

/-- Modelled from the spec: `GET /catchment/csv/{id}` returns the result
artifact; only valid once status ∈ {done, partial} (§6). -/
def getCsv (j : Job) : Option (List EnrichedRow) :=
  if j.status = .done ∨ j.status = .partialSuccess then j.result_ref else none

/-- One push-channel event, as consumed by the client (`event.data` fields
`type`, `status`, `error`). -/
structure SseEvent where
  type : String
  status : String
  error : Option String
deriving DecidableEq, Repr

/-- Modelled from the spec: the push channel emits two event types —
`init` (`{type:"init", status:"processing"}`) and `complete`
(`{type:"complete", status:"done"|"partial"|"failed", error?}`), and closes
after emitting `complete` (§6). -/
def channelEvents (terminal : JobStatus) : List SseEvent :=
  [⟨"init", "processing", none⟩, ⟨"complete", statusString terminal, none⟩]

/-- The client's view of one job's stream: the `result` state variable of
`StepContent` and whether the client has closed its `EventSource`. -/
structure ClientState where
  result : String
  closed : Bool
deriving DecidableEq, Repr

/-- After a successful upload, `StepContent.handleUpload` sets
`result = "pending"` and the stream is open. -/
def initialClientState : ClientState :=
  { result := "pending", closed := false }

/-- The handler `eventSource.onmessage` of `StepContent.tsx` (lines 69–92): on a
`complete` event with status `done` or `partial`, set `result` to `"done"`
and close the source; on any other `complete`, set `result` to `"failed"`
and close; on `init` with status `processing`, set `result` to `"pending"`.
A closed source delivers nothing, so a closed state is left unchanged. -/
def onMessage (s : ClientState) (e : SseEvent) : ClientState :=
  if s.closed then s
  else if e.type = "complete" then
    if e.status = "done" ∨ e.status = "partial" then { result := "done", closed := true }
    else { result := "failed", closed := true }
  else if e.type = "init" then
    if e.status = "processing" then { s with result := "pending" } else s
  else s

/-- The client state after consuming a list of events in order. -/
def runClient (events : List SseEvent) : ClientState :=
  events.foldl onMessage initialClientState

/-- The case-3 render of `StepContent.tsx` (lines 479–508): the download
button is offered exactly when `result === "done"`. -/
def showDownload (s : ClientState) : Bool :=
  s.result == "done"

/-! ## Client auth state (`AuthProvider`) -/

/-- The two localStorage keys used by the auth flow: `jwt_token` and
`user_data`; `none` means the key is absent. -/
structure Storage where
  jwt_token : Option String
  user_data : Option String
deriving DecidableEq, Repr

/-- The React state of `AuthProvider`: `user` (its `username`) and `token`. -/
structure AuthState where
  user : Option String
  token : Option String
deriving DecidableEq, Repr

/-- The full client auth picture: React state plus localStorage. -/
structure AppState where
  auth : AuthState
  storage : Storage
deriving DecidableEq, Repr

/-- JavaScript truthiness of a `string | null` value: `null` and the empty
string are falsy. -/
def truthy : Option String → Bool
  | none => false
  | some s => !s.isEmpty

/-- Both fields start as `useState<... | null>(null)`. -/
def initialAuthState : AuthState :=
  { user := none, token := none }

/-- The mount effect of `AuthProvider`: read `jwt_token` and `user_data`
from localStorage and, if both are truthy, set token and user together;
otherwise leave the state untouched. -/
def loadFromStorage (st : Storage) (a : AuthState) : AuthState :=
  if truthy st.jwt_token && truthy st.user_data then
    { user := st.user_data, token := st.jwt_token }
  else a

/-- The operation `AuthProvider.login(token, user)`: set both state fields and both
localStorage keys. -/
def login (t u : String) (_s : AppState) : AppState :=
  { auth := { user := some u, token := some t },
    storage := { jwt_token := some t, user_data := some u } }

/-- The operation `AuthProvider.logout()`: clear both state fields and remove both
localStorage keys. -/
def logout (_s : AppState) : AppState :=
  { auth := { user := none, token := none },
    storage := { jwt_token := none, user_data := none } }

/-- The provider value `isAuthenticated: !!token` of `AuthProvider` — JS truthiness of the
token. -/
def isAuthenticated (a : AuthState) : Bool :=
  truthy a.token

/-! ## Client-side upload gating (`uploadProps.beforeUpload`) -/

/-- The observable outcome of one `beforeUpload` call: whether the file was
staged (`setFileList([file]); setFile(file); setNext(true)`), the boolean
the callback returns, and whether `message.error` fired. -/
structure UploadCheck where
  staged : Bool
  returnValue : Bool
  errorShown : Bool
deriving DecidableEq, Repr

/-- The check `file.type === "text/csv" || file.name.toLowerCase().endsWith(".csv")`. -/
def isCsvFile (fileType fileName : String) : Bool :=
  fileType == "text/csv" || ['.', 'c', 's', 'v'].isSuffixOf (fileName.data.map Char.toLower)

/-- Strip one trailing carriage return, as the separator `\r\n|\n` absorbs
the `\r` preceding each `\n`. -/
def stripCR (l : List Char) : List Char :=
  match l.reverse with
  | '\r' :: rest => rest.reverse
  | _ => l

/-- The split `fileText.split(/\r\n|\n/)`. -/
def jsSplitLines (s : String) : List (List Char) :=
  (s.data.splitOn '\n').map stripCR

/-- The number of lines whose `trim()` is non-empty. -/
def nonBlankLineCount (s : String) : Nat :=
  ((jsSplitLines s).filter fun l => !l.all Char.isWhitespace).length

/-- The callback `uploadProps.beforeUpload` of `StepContent.tsx` (lines 225–270): reject
with an error message when the caller is unauthenticated, the file is not a
CSV, or the text has fewer than two non-blank lines; otherwise stage the
file. The callback returns `false` in every case (the POST is issued later
by `onNextClick`, which only runs when a file was staged). -/
def beforeUpload (isAuth : Bool) (fileType fileName fileText : String) : UploadCheck :=
  if !isAuth then
    { staged := false, returnValue := false, errorShown := true }
  else if !isCsvFile fileType fileName then
    { staged := false, returnValue := false, errorShown := true }
  else if nonBlankLineCount fileText < 2 then
    { staged := false, returnValue := false, errorShown := true }
  else
    { staged := true, returnValue := false, errorShown := false }

/-! ## Concrete example inputs -/

/-- A fully valid data row (the README's sample row). -/
def exRowOk : Row :=
  ⟨"sample_seller", "sample_provider", "L1", "28.5065162,77.073938", "500", ""⟩

/-- A second valid row with a distinct `location_id`. -/
def exRowOk2 : Row :=
  ⟨"sample_seller", "sample_provider", "L2", "30.7135305,76.7454157", "", "20"⟩

/-- A row whose `snp_id` is empty, violating the identifier rule. -/
def exRowBadSnp : Row :=
  ⟨"", "sample_provider", "L3", "28.5065162,77.073938", "500", ""⟩

/-- A row whose latitude component has a single decimal digit. -/
def exRowBadGps : Row :=
  ⟨"sample_seller", "sample_provider", "L4", "1.0,2.0000", "500", ""⟩

/-- A row whose latitude 90.0001 lies just outside the permitted range. -/
def exRowGpsOver : Row :=
  ⟨"sample_seller", "sample_provider", "L5", "90.0001,77.0000", "500", ""⟩

/-- A row sharing `exRowOk`'s `location_id` without being byte-identical. -/
def exRowDupLoc : Row :=
  ⟨"sample_seller", "sample_provider", "L1", "30.7135305,76.7454157", "", "20"⟩

/-- A two-row file that passes validation. -/
def exFileOk : CsvFile := ⟨200, [exRowOk, exRowOk2]⟩

/-- A one-row file rejected by schema validation. -/
def exFileBad : CsvFile := ⟨200, [exRowBadSnp]⟩

/-- A two-row file whose rows share a `location_id`. -/
def exFileDup : CsvFile := ⟨200, [exRowOk, exRowDupLoc]⟩

/-- Enrichment succeeding on row 0 only. -/
def exEnrichFirst : Nat → Row → Option String :=
  fun i _ => if i = 0 then some "geo" else none

/-- Enrichment succeeding on every row. -/
def exEnrichAll : Nat → Row → Option String :=
  fun _ _ => some "geo"

/-- Enrichment failing on every row. -/
def exEnrichNone : Nat → Row → Option String :=
  fun _ _ => none

/-! ## Helper lemmas -/

/-- The Job-record invariant of §3: `result_ref` present iff status ∈
{done, partial}; `error_report` non-empty iff status ∈ {failed, partial}. -/
def JobInvariant (j : Job) : Prop :=
  (j.result_ref.isSome = true ↔ (j.status = .done ∨ j.status = .partialSuccess))
    ∧ (j.error_report ≠ [] ↔ (j.status = .failed ∨ j.status = .partialSuccess))

lemma validate_error_iff {f : CsvFile} {errs : List (Nat × String)} :
    validate f = .error errs ↔ errs = allRowErrors f ∧ allRowErrors f ≠ [] := by
  unfold validate
  split <;> simp_all [eq_comm]

lemma validate_ok_iff {f : CsvFile} {rows : List Row} :
    validate f = .ok rows ↔ rows = f.rows ∧ allRowErrors f = [] := by
  unfold validate
  split <;> simp_all [eq_comm]

lemma jobInvariant_finishJob (e : Nat → Row → Option String) (f : CsvFile) (j : Job) :
    JobInvariant (finishJob e f j) := by
  unfold JobInvariant finishJob
  rcases hv : validate f with errs | rows
  · obtain ⟨he, hne⟩ := validate_error_iff.mp hv
    subst he
    simp [hne]
  · by_cases hfails : (failures e rows).isEmpty = true
    · simp [hfails]
    · have hne : failures e rows ≠ [] := fun hnil => hfails (by simp [hnil])
      by_cases hoks : (successes e rows).isEmpty = true
      · simp [hfails, hoks, hne]
      · simp [hfails, hoks, hne]

lemma jobInvariant_of_reachable {j : Job} (h : JobReachable j) : JobInvariant j := by
  induction h with
  | created => constructor <;> simp [newJob]
  | claimed hr hp ih =>
      obtain ⟨h1, h2⟩ := ih
      simp [hp] at h1 h2
      constructor <;> simp [claimJob, h1, h2]
  | finished e f hr hp ih => exact jobInvariant_finishJob e f _

lemma mem_failures_of {e : Nat → Row → Option String} {rows : List Row}
    {x : Nat × Row × Option String}
    (hx : x ∈ enrichResults e 0 rows) (hnone : x.2.2 = none) :
    (rowNumber x.1, "enrichment failed") ∈ failures e rows := by
  unfold failures
  exact List.mem_filterMap.mpr ⟨x, hx, by rw [hnone]⟩

lemma mem_successes_of {e : Nat → Row → Option String} {rows : List Row}
    {x : Nat × Row × Option String} {g : String}
    (hx : x ∈ enrichResults e 0 rows) (hsome : x.2.2 = some g) :
    (⟨x.2.1, g⟩ : EnrichedRow) ∈ successes e rows := by
  unfold successes
  exact List.mem_filterMap.mpr ⟨x, hx, by rw [hsome]; rfl⟩

lemma failures_eq_nil_iff {e : Nat → Row → Option String} {rows : List Row} :
    failures e rows = [] ↔ ∀ x ∈ enrichResults e 0 rows, (x.2.2).isSome = true := by
  unfold failures
  rw [List.filterMap_eq_nil_iff]
  constructor
  · intro h x hx
    have hh := h x hx
    cases hm : x.2.2 with
    | none => rw [hm] at hh; simp at hh
    | some g => simp
  · intro h x hx
    have hh := h x hx
    cases hm : x.2.2 with
    | none => rw [hm] at hh; simp at hh
    | some g => rfl

lemma successes_eq_nil_iff {e : Nat → Row → Option String} {rows : List Row} :
    successes e rows = [] ↔ ∀ x ∈ enrichResults e 0 rows, x.2.2 = none := by
  unfold successes
  rw [List.filterMap_eq_nil_iff]
  constructor <;> intro h x hx <;> have hh := h x hx <;>
    simpa [Option.map_eq_none'] using hh

lemma two_le_count_of_two_get {α : Type} [DecidableEq α] :
    ∀ (l : List α) (i j : Nat) (a : α), i < j →
      l.get? i = some a → l.get? j = some a → 2 ≤ l.count a := by
  intro l
  induction l with
  | nil => intro i j a hij hi hj; simp at hi
  | cons x xs ih =>
    intro i j a hij hi hj
    match i, j with
    | 0, j + 1 =>
        have hx : x = a := by simpa using hi
        simp only [List.get?_cons_succ] at hj
        have hmem : a ∈ xs := List.get?_mem hj
        have h1 : 1 ≤ xs.count a := List.count_pos_iff.mpr hmem
        rw [List.count_cons, hx]
        simp only [beq_self_eq_true, if_true]
        omega
    | i + 1, j + 1 =>
        simp only [List.get?_cons_succ] at hi hj
        have h2 := ih i j a (by omega) hi hj
        have h3 : xs.count a ≤ (x :: xs).count a := by
          rw [List.count_cons]
          omega
        omega

lemma duplicateLocationAt_true {rows : List Row} {i j : Nat} {ri rj : Row}
    (hij : i ≠ j) (hi : rows.get? i = some ri) (hj : rows.get? j = some rj)
    (hloc : ri.location_id = rj.location_id) :
    duplicateLocationAt rows i = true := by
  unfold duplicateLocationAt
  rw [hi]
  simp only [decide_eq_true_eq]
  have hmi : (rows.map Row.location_id).get? i = some ri.location_id := by
    rw [List.get?_map, hi]; rfl
  have hmj : (rows.map Row.location_id).get? j = some ri.location_id := by
    rw [List.get?_map, hj, hloc]; rfl
  rcases Nat.lt_or_ge i j with hlt | hge
  · exact two_le_count_of_two_get _ i j _ hlt hmi hmj
  · have hlt : j < i := by omega
    exact two_le_count_of_two_get _ j i _ hlt hmj hmi

lemma dupLoc_mem_fileLevelErrors {f : CsvFile} {i : Nat}
    (hlt : i < f.rows.length) (hdup : duplicateLocationAt f.rows i = true) :
    (rowNumber i, "duplicate location_id") ∈ fileLevelErrors f := by
  unfold fileLevelErrors
  rw [List.mem_append]
  right
  rw [List.mem_bind]
  exact ⟨i, List.mem_range.mpr hlt, by simp [hdup]⟩

lemma mem_allRowErrors_of_fileLevel {f : CsvFile} {err : Nat × String}
    (h : err ∈ fileLevelErrors f) : err ∈ allRowErrors f := by
  unfold allRowErrors
  exact List.mem_append.mpr (Or.inl h)

/-! ## Claims -/

/-- C1: for every uploaded file, if schema validation rejects at least one
row, the Job transitions directly to status `failed`, every collected row
violation (row number plus message) is reported, and no row of the file is
processed or enriched — the outcome is independent of the enrichment
function. -/
theorem validation_failure_fails_whole_file
    (e : Nat → Row → Option String) (f : CsvFile) (errs : List (Nat × String))
    (h : validate f = .error errs) :
    (runJob e f).status = .failed
      ∧ (runJob e f).error_report = errs
      ∧ (runJob e f).result_ref = none
      ∧ ∀ e' : Nat → Row → Option String, runJob e' f = runJob e f := by
  unfold runJob finishJob
  rw [h]
  exact ⟨rfl, rfl, rfl, fun e' => rfl⟩

/-- Witness for C1: the file whose single row has an empty `snp_id` is
failed with that violation reported. -/
theorem validation_failure_fails_whole_file_witness :
    (runJob exEnrichAll exFileBad).status = .failed
      ∧ (runJob exEnrichAll exFileBad).error_report = [(2, "snp_id invalid")] := by
  have h := validation_failure_fails_whole_file exEnrichAll exFileBad
    [(2, "snp_id invalid")] (by rfl)
  exact ⟨h.1, h.2.1⟩

/-- C2: for every file in which every row passes schema validation, the
terminal Job status is determined by the enrichment outcomes: if at least
one row fails enrichment after retries and at least one succeeds, the Job
is `partial` with the artifact holding the successfully enriched rows and
`error_report` listing the failed ones; if all rows fail enrichment, the
Job is `failed`; if every row succeeds, the Job is `done`. -/
theorem enrichment_outcomes_determine_terminal_status
    (e : Nat → Row → Option String) (f : CsvFile) (rows : List Row)
    (h : validate f = .ok rows) :
    ((∃ x ∈ enrichResults e 0 rows, x.2.2 = none) →
        (∃ x ∈ enrichResults e 0 rows, (x.2.2).isSome = true) →
        (runJob e f).status = .partialSuccess
          ∧ (runJob e f).result_ref = some (successes e rows)
          ∧ (runJob e f).error_report = failures e rows)
      ∧ (rows ≠ [] → (∀ x ∈ enrichResults e 0 rows, x.2.2 = none) →
          (runJob e f).status = .failed
            ∧ (runJob e f).result_ref = none
            ∧ (runJob e f).error_report = failures e rows)
      ∧ ((∀ x ∈ enrichResults e 0 rows, (x.2.2).isSome = true) →
          (runJob e f).status = .done
            ∧ (runJob e f).result_ref = some (successes e rows)
            ∧ (runJob e f).error_report = []) := by
  refine ⟨?_, ?_, ?_⟩
  · rintro ⟨x, hx, hxn⟩ ⟨y, hy, hys⟩
    obtain ⟨g, hg⟩ := Option.isSome_iff_exists.mp hys
    have hfne : ¬(failures e rows).isEmpty = true := by
      simp only [List.isEmpty_iff]
      exact List.ne_nil_of_mem (mem_failures_of hx hxn)
    have hsne : ¬(successes e rows).isEmpty = true := by
      simp only [List.isEmpty_iff]
      exact List.ne_nil_of_mem (mem_successes_of hy hg)
    simp [runJob, finishJob, h, hfne, hsne]
  · rintro hne hall
    have hse : (successes e rows).isEmpty = true := by
      simp only [List.isEmpty_iff]
      exact successes_eq_nil_iff.mpr hall
    obtain ⟨r, rs, rfl⟩ := List.exists_cons_of_ne_nil hne
    have hmem : ((0, r, e 0 r) : Nat × Row × Option String)
        ∈ enrichResults e 0 (r :: rs) := by
      simp [enrichResults]
    have h0 : ((0, r, e 0 r) : Nat × Row × Option String).2.2 = none :=
      hall _ hmem
    have hfne : ¬(failures e (r :: rs)).isEmpty = true := by
      simp only [List.isEmpty_iff]
      exact List.ne_nil_of_mem (mem_failures_of hmem h0)
    simp [runJob, finishJob, h, hfne, hse]
  · intro hall
    have hfe : (failures e rows).isEmpty = true := by
      simp only [List.isEmpty_iff]
      exact failures_eq_nil_iff.mpr hall
    simp [runJob, finishJob, h, hfe]

/-- Witness for C2: on the valid two-row file, enrichment succeeding for the
first row only yields a `partial` Job. -/
theorem enrichment_outcomes_determine_terminal_status_witness :
    (runJob exEnrichFirst exFileOk).status = .partialSuccess :=
  ((enrichment_outcomes_determine_terminal_status exEnrichFirst exFileOk
    [exRowOk, exRowOk2] (by rfl)).1 (by decide) (by decide)).1

/-- C3: for every reachable Job, `result_ref` is present iff its status is
`done` or `partial`, and `error_report` is non-empty iff its status is
`failed` or `partial`. -/
theorem job_result_and_error_report_invariant (j : Job) (h : JobReachable j) :
    (j.result_ref.isSome = true ↔ (j.status = .done ∨ j.status = .partialSuccess))
      ∧ (j.error_report ≠ [] ↔ (j.status = .failed ∨ j.status = .partialSuccess)) :=
  jobInvariant_of_reachable h

/-- Witness for C3: the invariant at the freshly created Job. -/
theorem job_result_and_error_report_invariant_witness :
    (newJob.result_ref.isSome = true
        ↔ (newJob.status = .done ∨ newJob.status = .partialSuccess))
      ∧ (newJob.error_report ≠ []
        ↔ (newJob.status = .failed ∨ newJob.status = .partialSuccess)) :=
  job_result_and_error_report_invariant newJob JobReachable.created

/-- C4: for every uploaded file containing two rows with the same
`location_id`, validation rejects the whole file — the Job becomes
`failed` — and the row numbers of both offending rows are present in the
error report. -/
theorem duplicate_location_id_rejects_file
    (f : CsvFile) (i j : Nat) (ri rj : Row)
    (hij : i ≠ j) (hi : f.rows.get? i = some ri) (hj : f.rows.get? j = some rj)
    (hloc : ri.location_id = rj.location_id) :
    (∃ errs, validate f = .error errs
        ∧ (∃ m, (rowNumber i, m) ∈ errs) ∧ (∃ m, (rowNumber j, m) ∈ errs))
      ∧ ∀ e : Nat → Row → Option String, (runJob e f).status = .failed := by
  have hlti : i < f.rows.length := by
    rcases List.get?_eq_some.mp hi with ⟨h, _⟩
    exact h
  have hltj : j < f.rows.length := by
    rcases List.get?_eq_some.mp hj with ⟨h, _⟩
    exact h
  have hdi : duplicateLocationAt f.rows i = true :=
    duplicateLocationAt_true hij hi hj hloc
  have hdj : duplicateLocationAt f.rows j = true :=
    duplicateLocationAt_true (Ne.symm hij) hj hi hloc.symm
  have hmi : (rowNumber i, "duplicate location_id") ∈ allRowErrors f :=
    mem_allRowErrors_of_fileLevel (dupLoc_mem_fileLevelErrors hlti hdi)
  have hmj : (rowNumber j, "duplicate location_id") ∈ allRowErrors f :=
    mem_allRowErrors_of_fileLevel (dupLoc_mem_fileLevelErrors hltj hdj)
  have hne : allRowErrors f ≠ [] := List.ne_nil_of_mem hmi
  have hval : validate f = .error (allRowErrors f) := by
    unfold validate
    rw [if_neg hne]
  refine ⟨⟨allRowErrors f, hval, ⟨_, hmi⟩, ⟨_, hmj⟩⟩, fun e => ?_⟩
  simp [runJob, finishJob, hval]

/-- Witness for C4: the two-row file whose rows both carry `location_id`
`L1` is failed. -/
theorem duplicate_location_id_rejects_file_witness :
    (runJob exEnrichNone exFileDup).status = .failed :=
  (duplicate_location_id_rejects_file exFileDup 0 1 exRowOk exRowDupLoc
    (by decide) (by rfl) (by rfl) (by rfl)).2 exEnrichNone

/-- C5: the GPS range bounds are inclusive — a latitude of exactly 90 or
-90, and a longitude of exactly 180 or -180, pass the range check — while a
latitude of 90.0001 is rejected. A component `exactly 90` carries the scaled
value `90 * 10 ^ decimals`. -/
theorem gps_boundary_inclusive :
    (∀ (s : String) (la lo : DecimalNum), parseGps s = some (la, lo) →
        ((la.num = 90 * 10 ^ la.decimals ∨ la.num = -(90 * 10 ^ la.decimals)) →
          latInRange la = true)
        ∧ ((lo.num = 180 * 10 ^ lo.decimals ∨ lo.num = -(180 * 10 ^ lo.decimals)) →
          lonInRange lo = true))
      ∧ gpsFieldOk "90.0000,180.0000" = true
      ∧ gpsFieldOk "-90.0000,-180.0000" = true
      ∧ gpsFieldOk "90.0001,77.0000" = false
      ∧ ∀ (n : Nat) (r : Row), r.location_gps = "90.0001,77.0000" →
          (rowNumber n, "location_gps invalid") ∈ rowErrors n r := by
  refine ⟨?_, by decide, by decide, by decide, ?_⟩
  · intro s la lo hps
    constructor
    · rintro (h | h) <;> simp [latInRange, h]
    · rintro (h | h) <;> simp [lonInRange, h]
  · intro n r hr
    have hgps : gpsFieldOk r.location_gps = false := by rw [hr]; decide
    unfold rowErrors
    simp [List.mem_append, hgps]

/-- Witness for C5: the boundary latitude 90.0000 is in range, and a row
carrying latitude 90.0001 is reported invalid. -/
theorem gps_boundary_inclusive_witness :
    latInRange ⟨900000, 4⟩ = true
      ∧ (rowNumber 0, "location_gps invalid") ∈ rowErrors 0 exRowGpsOver :=
  ⟨(gps_boundary_inclusive.1 "90.0000,77.0000" ⟨900000, 4⟩ ⟨770000, 4⟩
      (by decide)).1 (Or.inl (by decide)),
   gps_boundary_inclusive.2.2.2.2 0 exRowGpsOver (by rfl)⟩

/-- C6: a `location_gps` whose latitude or longitude component has fewer
than 4 digits after the decimal point is rejected, and the row is reported
in the error list, regardless of range validity. -/
theorem gps_decimal_precision_required
    (n : Nat) (r : Row) (la lo : DecimalNum)
    (hps : parseGps r.location_gps = some (la, lo))
    (hlt : la.decimals < 4 ∨ lo.decimals < 4) :
    gpsFieldOk r.location_gps = false
      ∧ (rowNumber n, "location_gps invalid") ∈ rowErrors n r := by
  have hfo : gpsFieldOk r.location_gps = false := by
    unfold gpsFieldOk
    rw [hps]
    rcases hlt with h | h
    · have h4 : ¬(4 ≤ la.decimals) := by omega
      simp [h4]
    · have h4 : ¬(4 ≤ lo.decimals) := by omega
      simp [h4]
  refine ⟨hfo, ?_⟩
  unfold rowErrors
  simp [List.mem_append, hfo]

/-- Witness for C6: the row whose latitude `1.0` carries a single decimal
digit is rejected even though both components are range-valid. -/
theorem gps_decimal_precision_required_witness :
    gpsFieldOk exRowBadGps.location_gps = false
      ∧ (rowNumber 0, "location_gps invalid") ∈ rowErrors 0 exRowBadGps :=
  gps_decimal_precision_required 0 exRowBadGps ⟨10, 1⟩ ⟨20000, 4⟩
    (by decide) (Or.inl (by decide))

/-- C7: the result artifact of a reachable Job is retrievable via
`GET /catchment/csv/{id}` exactly when the Job's status is `done` or
`partial`, and the client offers the artifact download exactly for a
completion status of `done` or `partial`. -/
theorem artifact_available_iff_terminal_success
    (j : Job) (h : JobReachable j) :
    ((getCsv j).isSome = true ↔ (j.status = .done ∨ j.status = .partialSuccess))
      ∧ (showDownload (runClient (channelEvents j.status)) = true
          ↔ (j.status = .done ∨ j.status = .partialSuccess)) := by
  obtain ⟨h1, h2⟩ := jobInvariant_of_reachable h
  constructor
  · unfold getCsv
    by_cases hs : j.status = .done ∨ j.status = .partialSuccess
    · simp [hs, h1.mpr hs]
    · simp [hs]
  · cases hstatus : j.status <;> decide

/-- Witness for C7: the fully processed valid file yields a `done` Job whose
artifact is retrievable and offered for download. -/
theorem artifact_available_iff_terminal_success_witness :
    ((getCsv (runJob exEnrichAll exFileOk)).isSome = true
        ↔ ((runJob exEnrichAll exFileOk).status = .done
            ∨ (runJob exEnrichAll exFileOk).status = .partialSuccess))
      ∧ (showDownload (runClient (channelEvents (runJob exEnrichAll exFileOk).status)) = true
        ↔ ((runJob exEnrichAll exFileOk).status = .done
            ∨ (runJob exEnrichAll exFileOk).status = .partialSuccess)) :=
  artifact_available_iff_terminal_success _
    (JobReachable.finished exEnrichAll exFileOk
      (JobReachable.claimed JobReachable.created rfl) rfl)

/-- C8: the push channel emits only `init` events (status `processing`) and
`complete` events (status `done`, `partial` or `failed`); any `complete`
event closes the client's source, a closed source handles nothing further,
and the client ends every stream closed. -/
theorem push_channel_event_contract (st : JobStatus)
    (hterm : st = .done ∨ st = .partialSuccess ∨ st = .failed) :
    (∀ ev ∈ channelEvents st,
        (ev.type = "init" ∧ ev.status = "processing")
          ∨ (ev.type = "complete"
              ∧ (ev.status = "done" ∨ ev.status = "partial" ∨ ev.status = "failed")))
      ∧ (∀ (s : ClientState) (ev : SseEvent), s.closed = false → ev.type = "complete" →
          (onMessage s ev).closed = true)
      ∧ (∀ (s : ClientState) (ev : SseEvent), s.closed = true → onMessage s ev = s)
      ∧ (runClient (channelEvents st)).closed = true := by
  refine ⟨?_, ?_, ?_, ?_⟩
  · rcases hterm with h | h | h <;> subst h <;> decide
  · intro s ev hc ht
    unfold onMessage
    simp only [hc, ht, Bool.false_eq_true, if_false, if_true, if_pos rfl]
    split <;> rfl
  · intro s ev hc
    unfold onMessage
    simp [hc]
  · rcases hterm with h | h | h <;> subst h <;> decide

/-- Witness for C8: the stream for a `done` Job leaves the client closed. -/
theorem push_channel_event_contract_witness :
    (runClient (channelEvents .done)).closed = true :=
  (push_channel_event_contract .done (Or.inl rfl)).2.2.2

/-- C9 as stated is false on the code: `AuthProvider` computes
`isAuthenticated` as `!!token`, JavaScript truthiness, so after
`login("", "alice")` the token is non-null while `isAuthenticated` is
false. -/
theorem auth_token_nonnull_equivalence_cex :
    (login "" "alice" ⟨initialAuthState, ⟨none, none⟩⟩).auth.token ≠ none
      ∧ isAuthenticated (login "" "alice" ⟨initialAuthState, ⟨none, none⟩⟩).auth
          = false := by
  decide

/-- C9, amended: `isAuthenticated` is true exactly when the token is a
non-null, *non-empty* string; the initial localStorage load sets token and
user together (and only when both stored values are truthy), `login` sets
the state and both localStorage keys, and `logout` clears the token, the
user and both localStorage keys. -/
theorem auth_state_equivalence_amended :
    (∀ a : AuthState, isAuthenticated a = true ↔ ∃ t, a.token = some t ∧ t ≠ "")
      ∧ (∀ (st : Storage) (a : AuthState),
          loadFromStorage st a = a
            ∨ ((loadFromStorage st a).token = st.jwt_token
                ∧ (loadFromStorage st a).user = st.user_data
                ∧ truthy st.jwt_token = true ∧ truthy st.user_data = true))
      ∧ (∀ (t u : String) (s : AppState),
          (login t u s).auth.token = some t
            ∧ (login t u s).auth.user = some u
            ∧ (login t u s).storage.jwt_token = some t
            ∧ (login t u s).storage.user_data = some u)
      ∧ (∀ s : AppState,
          (logout s).auth.token = none ∧ (logout s).auth.user = none
            ∧ (logout s).storage.jwt_token = none
            ∧ (logout s).storage.user_data = none) := by
  refine ⟨?_, ?_, ?_, ?_⟩
  · rintro ⟨u, t⟩
    cases t with
    | none => simp [isAuthenticated, truthy]
    | some s =>
        simp only [isAuthenticated, truthy, Bool.not_eq_true', Option.some.injEq]
        constructor
        · intro hne
          refine ⟨s, rfl, fun hnil => ?_⟩
          rw [hnil] at hne
          exact absurd hne (by decide)
        · rintro ⟨t, rfl, hne⟩
          exact Bool.eq_false_iff.mpr fun h => hne ((String.isEmpty_iff _).mp h)
  · intro st a
    unfold loadFromStorage
    split
    · next hcond =>
        rw [Bool.and_eq_true] at hcond
        exact Or.inr ⟨rfl, rfl, hcond.1, hcond.2⟩
    · exact Or.inl rfl
  · intro t u s
    exact ⟨rfl, rfl, rfl, rfl⟩
  · intro s
    exact ⟨rfl, rfl, rfl, rfl⟩

/-- C10: `beforeUpload` stages the file exactly when the caller is
authenticated, the file is a CSV by MIME type or (case-insensitive) name
suffix, and the text has at least two non-blank lines; it returns `false`
in every case, and shows an error message exactly when it does not stage. -/
theorem before_upload_gating
    (isAuth : Bool) (fileType fileName fileText : String) :
    (beforeUpload isAuth fileType fileName fileText).staged
        = (isAuth && isCsvFile fileType fileName
            && decide (2 ≤ nonBlankLineCount fileText))
      ∧ (beforeUpload isAuth fileType fileName fileText).returnValue = false
      ∧ (beforeUpload isAuth fileType fileName fileText).errorShown
          = !(beforeUpload isAuth fileType fileName fileText).staged := by
  unfold beforeUpload
  cases isAuth
  · simp
  · by_cases hc : isCsvFile fileType fileName = true
    · by_cases hn : nonBlankLineCount fileText < 2
      · have h2 : ¬(2 ≤ nonBlankLineCount fileText) := by omega
        simp [hc, hn, h2]
      · have h2 : 2 ≤ nonBlankLineCount fileText := by omega
        simp [hc, hn, h2]
    · have hc' : isCsvFile fileType fileName = false := by
        cases h : isCsvFile fileType fileName
        · rfl
        · exact absurd h hc
      simp [hc']

end GeoJsonUtility
